import Mathlib

/-!
Shallow embedding of the Nanocellulose-Production-Optimization repository
(src/production_model.py and src/ga_optimization.py).

Numeric values are modelled by exact rationals `ℚ`; the Python runtime lookup
failure (`.iloc[0]` on an empty frame) is modelled by `Except EvalError`.
The randomised parts of the genetic algorithm (the DEAP selection, crossover
and mutation operators) are abstracted into an oracle supplying the gene
values each generation; the deterministic skeleton of the DEAP `eaSimple`
loop and `HallOfFame(1)` tracker is modelled from the spec.
-/

set_option autoImplicit false

namespace Nanocellulose

/-- A row of the Technologies table (spec §3 TechnologyRecord,
production_model.py uses columns id, capital_cost, operational_cost,
energy_consumption_rate, efficiency_factor). -/
structure TechnologyRecord where
  id : ℚ
  capital_cost : ℚ
  operational_cost : ℚ
  energy_consumption_rate : ℚ
  efficiency_factor : ℚ
  deriving DecidableEq, Repr

/-- The state of `ProductionModel` after `__init__` (production_model.py
lines 52-71): the technology table plus the derived scalars. -/
structure ProductionModel where
  technologies : List TechnologyRecord
  C_B : ℚ
  Q_min : ℚ
  E_max : ℚ
  P_max : ℚ
  C_E : ℚ
  deriving Repr

/-- Embedding of `ProductionModel.__init__` (production_model.py lines
53-71): `C_B` is the sum of the cost column of the materials table; each
threshold is read from the quality-metrics dict with
`dict.get(key, default)`. -/
def ProductionModel.init (technologies : List TechnologyRecord)
    (materialCosts : List ℚ) (metrics : List (String × ℚ)) : ProductionModel :=
  { technologies := technologies
    C_B := materialCosts.sum
    Q_min := (metrics.lookup "Q_min").getD 400
    E_max := (metrics.lookup "E_max").getD 2500
    P_max := (metrics.lookup "P_max").getD 1000
    C_E := (metrics.lookup "C_E").getD 0.15 }

/-- The failure mode of the pandas row lookup in production_model.py: an
empty id selection makes row extraction raise (fatal), which the spec
names `UnknownTechnology`. -/
inductive EvalError where
  | unknownTechnology
  deriving DecidableEq, Repr

/-- A solution is the pair `(technology_id, y)` handled by the evaluator
(production_model.py unpacks `technology_id, y = solution`). -/
abbrev Solution : Type := ℚ × ℚ

/-- The pandas record lookup shared by all evaluator methods: the first
row of the technology table whose id equals `technology_id`, if any. -/
def ProductionModel.findTech (m : ProductionModel) (technology_id : ℚ) :
    Option TechnologyRecord :=
  m.technologies.find? (fun t => decide (t.id = technology_id))

/-- Embedding of `ProductionModel.calculate_quality` (production_model.py
lines 73-85): `Q = efficiency_factor * y` for the looked-up technology. -/
def ProductionModel.calculate_quality (m : ProductionModel)
    (technology_id y : ℚ) : Except EvalError ℚ :=
  match m.findTech technology_id with
  | none => .error .unknownTechnology
  | some tech => .ok (tech.efficiency_factor * y)

/-- Embedding of `ProductionModel.objective_function` (production_model.py
lines 87-116): capital cost plus operational, energy and biomass costs
scaled by `y`. -/
def ProductionModel.objective_function (m : ProductionModel)
    (solution : Solution) : Except EvalError ℚ :=
  match m.findTech solution.1 with
  | none => .error .unknownTechnology
  | some tech =>
    let y := solution.2
    let total_capital_cost := tech.capital_cost
    let total_operational_cost := tech.operational_cost * y
    let total_energy_cost := m.C_E * tech.energy_consumption_rate * y
    let total_biomass_cost := m.C_B * y
    .ok (total_capital_cost + total_operational_cost + total_energy_cost
        + total_biomass_cost)

/-- Embedding of `ProductionModel.is_feasible` (production_model.py lines
118-156): four boolean constraints, `all` of them for feasibility, and a
penalty accumulated with `+=` over the violated ones, each scaled by 1000.
The quality value comes from `calculate_quality`, which performs its own
record lookup. -/
def ProductionModel.is_feasible (m : ProductionModel) (solution : Solution) :
    Except EvalError (Bool × ℚ) :=
  match m.findTech solution.1 with
  | none => .error .unknownTechnology
  | some tech =>
    match m.calculate_quality solution.1 solution.2 with
    | .error e => .error e
    | .ok Q =>
      let y := solution.2
      let capacity_feasibility := decide (y ≤ m.P_max)
      let energy_consumption := tech.energy_consumption_rate * y
      let energy_feasibility := decide (energy_consumption ≤ m.E_max)
      let quality_feasibility := decide (Q ≥ m.Q_min)
      let non_negativity := decide (y ≥ 0)
      let isFeasible := capacity_feasibility && energy_feasibility
          && quality_feasibility && non_negativity
      let penalty : ℚ :=
        (if capacity_feasibility then 0 else (y - m.P_max) * 1000)
        + (if energy_feasibility then 0 else (energy_consumption - m.E_max) * 1000)
        + (if quality_feasibility then 0 else (m.Q_min - Q) * 1000)
        + (if non_negativity then 0 else (-y) * 1000)
      .ok (isFeasible, penalty)

/-- Embedding of `ProductionModel.fitness_function` (production_model.py
lines 158-172): returns the one-element tuple `(total_cost,)` when feasible
and `(total_cost + penalty,)` otherwise; the tuple is modelled by a list. -/
def ProductionModel.fitness_function (m : ProductionModel)
    (solution : Solution) : Except EvalError (List ℚ) :=
  match m.objective_function solution with
  | .error e => .error e
  | .ok total_cost =>
    match m.is_feasible solution with
    | .error e => .error e
    | .ok (isFeasible, penalty) =>
      if isFeasible then .ok [total_cost] else .ok [total_cost + penalty]

/-- Embedding of `evaluate_individual` (ga_optimization.py lines 40-42):
converts the two-gene individual to a tuple and delegates to
`fitness_function`. -/
def evaluate_individual (m : ProductionModel) (individual : Solution) :
    Except EvalError (List ℚ) :=
  m.fitness_function individual

/-- The single objective weight from
`creator.create("FitnessMin", base.Fitness, weights=(-1.0,))`
(ga_optimization.py line 23). -/
def fitnessMinWeight : ℚ := -1

/-- The DEAP fitness dominance for the single `FitnessMin` objective:
an individual is strictly better when its weighted value is strictly
greater. -/
def deapBetter (a b : ℚ) : Bool :=
  decide (fitnessMinWeight * a > fitnessMinWeight * b)

/-- An evaluated individual: its genes with the cached fitness scalar. -/
abbrev Ind : Type := Solution × ℚ

/-- Evaluation pass of `run_ga`: every individual is scored through the
fitness function of the model; the cached scalar is the first (only)
component of the tuple. A failed technology lookup aborts the whole run. -/
def evaluatePop (m : ProductionModel) :
    List Solution → Except EvalError (List Ind)
  | [] => .ok []
  | s :: rest =>
    match m.fitness_function s with
    | .error e => .error e
    | .ok vals =>
      match evaluatePop m rest with
      | .error e => .error e
      | .ok inds => .ok ((s, vals.headD 0) :: inds)

/-- Modelled from the spec: the BestTracker (`tools.HallOfFame(1)` in
ga_optimization.py, not under src/) holds the lowest-fitness candidate
ever evaluated and replaces it only when a strictly better one appears
(spec §4.4 step 7). Processes the evaluated set in order. -/
def hofUpdate1 (hof : Option Ind) (pop : List Ind) : Option Ind :=
  pop.foldl
    (fun h ind =>
      match h with
      | none => some ind
      | some best => if ind.2 < best.2 then some ind else some best)
    hof

/-- The random choices of the run, made explicit: the initial gene draws
for a population of a given size, and, per generation, the genes produced
by tournament selection, crossover and mutation from the current
genes of the current population (spec §9: the implicit global RNG made injectable). -/
structure GAOracle where
  initGenes : ℕ → List Solution
  variedGenes : ℕ → ℚ → ℚ → List Solution → List Solution

/-- Modelled from the spec: one generation of `algorithms.eaSimple`
(spec §4.4 steps 4-9): select and vary the population (the oracle fixes
the random draws, gated by `cxpb`/`mutpb`), evaluate the offspring,
update the best tracker, and replace the population wholesale. -/
def gaGen (m : ProductionModel) (oracle : GAOracle) (cxpb mutpb : ℚ)
    (g : ℕ) (st : List Ind × Option Ind) :
    Except EvalError (List Ind × Option Ind) :=
  match evaluatePop m (oracle.variedGenes g cxpb mutpb (st.1.map Prod.fst)) with
  | .error e => .error e
  | .ok offspring => .ok (offspring, hofUpdate1 st.2 offspring)

/-- Modelled from the spec: the generation loop of `algorithms.eaSimple`,
running `k` further generations starting at generation index `g`. -/
def gaLoop (m : ProductionModel) (oracle : GAOracle) (cxpb mutpb : ℚ) :
    ℕ → ℕ → List Ind × Option Ind → Except EvalError (List Ind × Option Ind)
  | 0, _, st => .ok st
  | k + 1, g, st =>
    match gaGen m oracle cxpb mutpb g st with
    | .error e => .error e
    | .ok st2 => gaLoop m oracle cxpb mutpb k (g + 1) st2

/-- A failure of the whole run as observed from `run_ga`: a propagated
evaluation failure, the ValueError numpy raises when the registered `min`
statistic reduces an empty fitness set, or the IndexError of `hof[0]` on
an empty hall of fame. -/
inductive RunError where
  | evalError (e : EvalError)
  | emptyStatsError
  | emptyHofError
  deriving DecidableEq, Repr

/-- The per-generation aggregate record produced by the statistics
registered in `run_ga` (ga_optimization.py lines 57-60). -/
structure StatsRecord where
  avg : ℚ
  min : ℚ
  max : ℚ
  deriving DecidableEq, Repr

/-- Compiling the statistics registered in `run_ga` (ga_optimization.py
lines 57-60) over the fitness values of a population: numpy `min`/`max`
raise a ValueError on an empty set (the `mean` merely warns), so an empty
population is an error; `eaSimple` compiles this record at generation 0
and after every generation. -/
def statsCompile (pop : List Ind) : Except RunError StatsRecord :=
  match pop.map (fun ind => ind.2) with
  | [] => .error .emptyStatsError
  | f :: fs =>
    .ok { avg := (f :: fs).sum / ((f :: fs).length : ℚ)
          min := fs.foldl (fun a b => if b < a then b else a) f
          max := fs.foldl (fun a b => if a < b then b else a) f }

/-- One generation of `eaSimple` as executed inside `run_ga`: the
spec-modelled generation core (`gaGen`) followed by compiling the
registered statistics over the replaced population, which fails when
that population is empty. -/
def gaStep (m : ProductionModel) (oracle : GAOracle) (cxpb mutpb : ℚ)
    (g : ℕ) (st : List Ind × Option Ind) :
    Except RunError (List Ind × Option Ind) :=
  match gaGen m oracle cxpb mutpb g st with
  | .error e => .error (.evalError e)
  | .ok st2 =>
    match statsCompile st2.1 with
    | .error e => .error e
    | .ok _ => .ok st2

/-- The generation loop of `eaSimple` as executed inside `run_ga`,
statistics included, running `k` further generations starting at
generation index `g`. -/
def gaLoopRun (m : ProductionModel) (oracle : GAOracle) (cxpb mutpb : ℚ) :
    ℕ → ℕ → List Ind × Option Ind → Except RunError (List Ind × Option Ind)
  | 0, _, st => .ok st
  | k + 1, g, st =>
    match gaStep m oracle cxpb mutpb g st with
    | .error e => .error e
    | .ok st2 => gaLoopRun m oracle cxpb mutpb k (g + 1) st2

/-- Embedding of `run_ga` (ga_optimization.py lines 55-77): builds the
initial population of `population_size` individuals (`range(n)` of a
negative int is empty, hence `Int.toNat`), evaluates it, seeds the hall
of fame, compiles the generation-0 statistics (which raises on an empty
population), runs `generations` generations of `eaSimple` with the
statistics compiled after each one, then extracts `best = hof[0]` (an
IndexError when the tracker is empty) and re-evaluates
`model.fitness_function(tuple(best))[0]` for the reported cost. The
function performs no validation of any of its parameters. The loop body
is modelled from the spec (see `gaGen`). -/
def run_ga (m : ProductionModel) (oracle : GAOracle)
    (population_size generations : ℤ) (cxpb mutpb : ℚ) :
    Except RunError (Ind × ℚ) :=
  match evaluatePop m (oracle.initGenes population_size.toNat) with
  | .error e => .error (.evalError e)
  | .ok population =>
    let hof := hofUpdate1 none population
    match statsCompile population with
    | .error e => .error e
    | .ok _ =>
      match gaLoopRun m oracle cxpb mutpb generations.toNat 1 (population, hof) with
      | .error e => .error e
      | .ok st =>
        match st.2 with
        | none => .error .emptyHofError
        | some best =>
          match m.fitness_function best.1 with
          | .error e => .error (.evalError e)
          | .ok vals => .ok (best, vals.headD 0)

/-- The state reached after `n` generations of the loop, from a given
evaluated starting state. -/
def gaStateAfter (m : ProductionModel) (oracle : GAOracle) (cxpb mutpb : ℚ)
    (st0 : List Ind × Option Ind) (n : ℕ) :
    Except EvalError (List Ind × Option Ind) :=
  gaLoop m oracle cxpb mutpb n 1 st0

/-- The single technology of the spec §8 scenario:
`{id=1, capital_cost=100, operational_cost=2, energy_consumption_rate=5,
efficiency_factor=1.0}`. -/
def demoTech : TechnologyRecord :=
  { id := 1, capital_cost := 100, operational_cost := 2
    energy_consumption_rate := 5, efficiency_factor := 1 }

/-- The spec §8 scenario model: one technology, a single material of unit
cost 1, and no stored thresholds (all four defaults apply). -/
def demoModel : ProductionModel :=
  ProductionModel.init [demoTech] [1] []

/-- A concrete oracle: every initial gene draw is the scenario candidate
`(1, 500)` and variation leaves the genes unchanged. -/
def oracleConst : GAOracle :=
  { initGenes := fun n => List.replicate n (1, 500)
    variedGenes := fun _ _ _ genes => genes }

end Nanocellulose

namespace Nanocellulose

/-! Helper lemmas shared by the claim theorems. -/

/-- When the record lookup succeeds, `calculate_quality` returns
`efficiency_factor * y`. -/
theorem calculate_quality_of_findTech {m : ProductionModel} {tid y : ℚ}
    {tech : TechnologyRecord} (h : m.findTech tid = some tech) :
    m.calculate_quality tid y = .ok (tech.efficiency_factor * y) := by
  simp [ProductionModel.calculate_quality, h]

/-- When the record lookup succeeds, `objective_function` returns the
four-summand cost. -/
theorem objective_of_findTech {m : ProductionModel} {s : Solution}
    {tech : TechnologyRecord} (h : m.findTech s.1 = some tech) :
    m.objective_function s = .ok (tech.capital_cost + tech.operational_cost * s.2
      + m.C_E * tech.energy_consumption_rate * s.2 + m.C_B * s.2) := by
  simp [ProductionModel.objective_function, h]

/-- When the record lookup succeeds, `is_feasible` returns the conjunction
of the four constraint checks and the accumulated penalty. -/
theorem is_feasible_of_findTech {m : ProductionModel} {s : Solution}
    {tech : TechnologyRecord} (h : m.findTech s.1 = some tech) :
    m.is_feasible s = .ok
      (decide (s.2 ≤ m.P_max) && decide (tech.energy_consumption_rate * s.2 ≤ m.E_max)
        && decide (tech.efficiency_factor * s.2 ≥ m.Q_min) && decide (s.2 ≥ 0),
      (if s.2 ≤ m.P_max then 0 else (s.2 - m.P_max) * 1000)
      + (if tech.energy_consumption_rate * s.2 ≤ m.E_max then 0
          else (tech.energy_consumption_rate * s.2 - m.E_max) * 1000)
      + (if tech.efficiency_factor * s.2 ≥ m.Q_min then 0
          else (m.Q_min - tech.efficiency_factor * s.2) * 1000)
      + (if s.2 ≥ 0 then 0 else (-s.2) * 1000)) := by
  simp [ProductionModel.is_feasible, h, calculate_quality_of_findTech h]

end Nanocellulose

namespace Nanocellulose

/-- C3: for every solution whose technology id matches a loaded record, the
objective equals `capital_cost + operational_cost*capacity +
energy_unit_price*energy_consumption_rate*capacity + biomass_cost*capacity`
(the energy unit price is the model field `C_E` and the biomass cost its
`C_B`). -/
theorem C3_objective_formula (m : ProductionModel) (s : Solution)
    (tech : TechnologyRecord) (h : m.findTech s.1 = some tech) :
    m.objective_function s = .ok (tech.capital_cost + tech.operational_cost * s.2
      + m.C_E * tech.energy_consumption_rate * s.2 + m.C_B * s.2) :=
  objective_of_findTech h

/-- Witness for C3 at the spec scenario: model `demoModel`, candidate
`(1, 500)`. -/
theorem C3_objective_formula_witness :
    demoModel.findTech 1 = some demoTech ∧
    demoModel.objective_function (1, 500) = .ok (demoTech.capital_cost
      + demoTech.operational_cost * 500
      + demoModel.C_E * demoTech.energy_consumption_rate * 500
      + demoModel.C_B * 500) :=
  ⟨rfl, C3_objective_formula demoModel (1, 500) demoTech rfl⟩

/-- C4: a solution whose technology id matches no loaded record makes every
evaluation entry point (quality, objective, feasibility, fitness) fail with
the UnknownTechnology error; in particular the GA evaluation never returns
a substituted default value. -/
theorem C4_unknown_technology (m : ProductionModel) (s : Solution)
    (h : m.findTech s.1 = none) :
    m.calculate_quality s.1 s.2 = .error .unknownTechnology ∧
    m.objective_function s = .error .unknownTechnology ∧
    m.is_feasible s = .error .unknownTechnology ∧
    m.fitness_function s = .error .unknownTechnology ∧
    evaluate_individual m s = .error .unknownTechnology ∧
    ∀ v : List ℚ, evaluate_individual m s ≠ .ok v := by
  have hq : m.calculate_quality s.1 s.2 = .error .unknownTechnology := by
    simp [ProductionModel.calculate_quality, h]
  have ho : m.objective_function s = .error .unknownTechnology := by
    simp [ProductionModel.objective_function, h]
  have hf : m.is_feasible s = .error .unknownTechnology := by
    simp [ProductionModel.is_feasible, h]
  have hfit : m.fitness_function s = .error .unknownTechnology := by
    simp [ProductionModel.fitness_function, ho, hf]
  exact ⟨hq, ho, hf, hfit, hfit, by simp [evaluate_individual, hfit]⟩

/-- Witness for C4: the spec scenario candidate with `technology_id = 99`
and no matching record. -/
theorem C4_unknown_technology_witness :
    demoModel.findTech 99 = none ∧
    (demoModel.calculate_quality 99 500 = .error .unknownTechnology ∧
    demoModel.objective_function (99, 500) = .error .unknownTechnology ∧
    demoModel.is_feasible (99, 500) = .error .unknownTechnology ∧
    demoModel.fitness_function (99, 500) = .error .unknownTechnology ∧
    evaluate_individual demoModel (99, 500) = .error .unknownTechnology ∧
    ∀ v : List ℚ, evaluate_individual demoModel (99, 500) ≠ .ok v) :=
  ⟨rfl, C4_unknown_technology demoModel (99, 500) rfl⟩

/-- C8: each threshold key absent from the quality-metrics data falls back
to its documented default (`Q_min=400`, `E_max=2500`, `P_max=1000`,
`C_E=0.15`); construction is a total function, so the absence is recovered
locally and never surfaced as an error. -/
theorem C8_threshold_defaults (technologies : List TechnologyRecord)
    (materialCosts : List ℚ) (metrics : List (String × ℚ)) :
    (metrics.lookup "Q_min" = none →
      (ProductionModel.init technologies materialCosts metrics).Q_min = 400) ∧
    (metrics.lookup "E_max" = none →
      (ProductionModel.init technologies materialCosts metrics).E_max = 2500) ∧
    (metrics.lookup "P_max" = none →
      (ProductionModel.init technologies materialCosts metrics).P_max = 1000) ∧
    (metrics.lookup "C_E" = none →
      (ProductionModel.init technologies materialCosts metrics).C_E = 0.15) := by
  refine ⟨fun h => ?_, fun h => ?_, fun h => ?_, fun h => ?_⟩ <;>
    simp [ProductionModel.init, h]

/-- Witness for C8: the empty metrics table yields all four defaults. -/
theorem C8_threshold_defaults_witness :
    (([] : List (String × ℚ)).lookup "Q_min" = none) ∧
    (ProductionModel.init [demoTech] [1] []).Q_min = 400 ∧
    (ProductionModel.init [demoTech] [1] []).E_max = 2500 ∧
    (ProductionModel.init [demoTech] [1] []).P_max = 1000 ∧
    (ProductionModel.init [demoTech] [1] []).C_E = 0.15 := by
  have h := C8_threshold_defaults [demoTech] [1] []
  exact ⟨rfl, h.1 rfl, h.2.1 rfl, h.2.2.1 rfl, h.2.2.2 rfl⟩

end Nanocellulose

namespace Nanocellulose

/-- C1: for every solution whose technology id matches a loaded record, the
fitness scalar equals the objective when the solution is feasible and the
objective plus the penalty when it is not; the GA evaluation delegates to
this fitness, and under the registered weight of -1 a fitness value is
strictly better exactly when it is strictly lower (minimization). -/
theorem C1_fitness_minimization (m : ProductionModel) (s : Solution)
    (tech : TechnologyRecord) (h : m.findTech s.1 = some tech) :
    ∃ obj feas pen, m.objective_function s = .ok obj ∧
      m.is_feasible s = .ok (feas, pen) ∧
      evaluate_individual m s = m.fitness_function s ∧
      (feas = true → m.fitness_function s = .ok [obj]) ∧
      (feas = false → m.fitness_function s = .ok [obj + pen]) ∧
      (∀ a b : ℚ, deapBetter a b = true ↔ a < b) := by
  have ho := objective_of_findTech h
  have hfs := is_feasible_of_findTech h
  refine ⟨_, _, _, ho, hfs, rfl, ?_, ?_, ?_⟩
  · intro hft
    simp [ProductionModel.fitness_function, ho, hfs, hft]
  · intro hff
    simp [ProductionModel.fitness_function, ho, hfs, hff]
  · intro a b
    constructor
    · intro hab
      have := of_decide_eq_true hab
      simp only [fitnessMinWeight] at this
      linarith
    · intro hab
      apply decide_eq_true
      simp only [fitnessMinWeight]
      linarith

/-- Witness for C1 at the spec scenario: model `demoModel`, candidate
`(1, 500)`. -/
theorem C1_fitness_minimization_witness :
    demoModel.findTech 1 = some demoTech ∧
    (∃ obj feas pen, demoModel.objective_function (1, 500) = .ok obj ∧
      demoModel.is_feasible (1, 500) = .ok (feas, pen) ∧
      evaluate_individual demoModel (1, 500) = demoModel.fitness_function (1, 500) ∧
      (feas = true → demoModel.fitness_function (1, 500) = .ok [obj]) ∧
      (feas = false → demoModel.fitness_function (1, 500) = .ok [obj + pen]) ∧
      (∀ a b : ℚ, deapBetter a b = true ↔ a < b)) :=
  ⟨rfl, C1_fitness_minimization demoModel (1, 500) demoTech rfl⟩

/-- C2: for every solution whose technology id matches a loaded record,
feasibility evaluates exactly the four constraints (capacity bound, energy
bound, quality bound, non-negativity); the flag is true iff all four hold
and the penalty is the uncapped sum, over the violated constraints, of 1000
times the signed violation magnitude. -/
theorem C2_feasibility_four_constraints (m : ProductionModel) (s : Solution)
    (tech : TechnologyRecord) (h : m.findTech s.1 = some tech) :
    ∃ feas pen, m.is_feasible s = .ok (feas, pen) ∧
      (feas = true ↔ (s.2 ≤ m.P_max ∧ tech.energy_consumption_rate * s.2 ≤ m.E_max ∧
        tech.efficiency_factor * s.2 ≥ m.Q_min ∧ s.2 ≥ 0)) ∧
      pen = (if s.2 ≤ m.P_max then 0 else 1000 * (s.2 - m.P_max))
        + (if tech.energy_consumption_rate * s.2 ≤ m.E_max then 0
            else 1000 * (tech.energy_consumption_rate * s.2 - m.E_max))
        + (if tech.efficiency_factor * s.2 ≥ m.Q_min then 0
            else 1000 * (m.Q_min - tech.efficiency_factor * s.2))
        + (if s.2 ≥ 0 then 0 else 1000 * (-s.2)) := by
  refine ⟨_, _, is_feasible_of_findTech h, ?_, ?_⟩
  · simp [and_assoc]
  · split_ifs <;> ring

/-- Witness for C2 at the spec scenario: model `demoModel`, candidate
`(1, 500)`. -/
theorem C2_feasibility_four_constraints_witness :
    demoModel.findTech 1 = some demoTech ∧
    (∃ feas pen, demoModel.is_feasible (1, 500) = .ok (feas, pen) ∧
      (feas = true ↔ ((500:ℚ) ≤ demoModel.P_max ∧
        demoTech.energy_consumption_rate * 500 ≤ demoModel.E_max ∧
        demoTech.efficiency_factor * 500 ≥ demoModel.Q_min ∧ (500:ℚ) ≥ 0)) ∧
      pen = (if (500:ℚ) ≤ demoModel.P_max then 0 else 1000 * (500 - demoModel.P_max))
        + (if demoTech.energy_consumption_rate * 500 ≤ demoModel.E_max then 0
            else 1000 * (demoTech.energy_consumption_rate * 500 - demoModel.E_max))
        + (if demoTech.efficiency_factor * 500 ≥ demoModel.Q_min then 0
            else 1000 * (demoModel.Q_min - demoTech.efficiency_factor * 500))
        + (if (500:ℚ) ≥ 0 then 0 else 1000 * (-(500:ℚ)))) :=
  ⟨rfl, C2_feasibility_four_constraints demoModel (1, 500) demoTech rfl⟩

/-- C10: for every solution whose technology id matches a loaded record,
the fitness function returns a one-element tuple whose single component is
the scalar of the fitness contract (objective when feasible, objective plus
penalty otherwise). -/
theorem C10_fitness_one_element_tuple (m : ProductionModel) (s : Solution)
    (tech : TechnologyRecord) (h : m.findTech s.1 = some tech) :
    ∃ x obj feas pen, m.objective_function s = .ok obj ∧
      m.is_feasible s = .ok (feas, pen) ∧
      m.fitness_function s = .ok [x] ∧
      x = if feas = true then obj else obj + pen := by
  obtain ⟨obj, ho⟩ : ∃ obj, m.objective_function s = .ok obj :=
    ⟨_, objective_of_findTech h⟩
  obtain ⟨feas, pen, hfs⟩ : ∃ feas pen, m.is_feasible s = .ok (feas, pen) :=
    ⟨_, _, is_feasible_of_findTech h⟩
  refine ⟨if feas = true then obj else obj + pen, obj, feas, pen, ho, hfs, ?_, rfl⟩
  cases feas <;> simp [ProductionModel.fitness_function, ho, hfs]

/-- Witness for C10 at the spec scenario: model `demoModel`, candidate
`(1, 500)`. -/
theorem C10_fitness_one_element_tuple_witness :
    demoModel.findTech 1 = some demoTech ∧
    (∃ x obj feas pen, demoModel.objective_function (1, 500) = .ok obj ∧
      demoModel.is_feasible (1, 500) = .ok (feas, pen) ∧
      demoModel.fitness_function (1, 500) = .ok [x] ∧
      x = if feas = true then obj else obj + pen) :=
  ⟨rfl, C10_fitness_one_element_tuple demoModel (1, 500) demoTech rfl⟩

end Nanocellulose

namespace Nanocellulose

/-- A sum of four penalty terms, each zero when its constraint holds and
strictly positive when it is violated, is strictly positive as soon as one
constraint fails. -/
theorem penalty_sum_pos {c1 c2 c3 c4 : Prop}
    [Decidable c1] [Decidable c2] [Decidable c3] [Decidable c4]
    {v1 v2 v3 v4 : ℚ}
    (h1 : ¬c1 → 0 < v1) (h2 : ¬c2 → 0 < v2)
    (h3 : ¬c3 → 0 < v3) (h4 : ¬c4 → 0 < v4)
    (hnot : ¬(c1 ∧ c2 ∧ c3 ∧ c4)) :
    0 < (if c1 then (0:ℚ) else v1) + (if c2 then 0 else v2)
      + (if c3 then 0 else v3) + (if c4 then 0 else v4) := by
  have n1 : (0:ℚ) ≤ if c1 then 0 else v1 := by
    by_cases k : c1
    · simp [k]
    · simp [k]; exact le_of_lt (h1 k)
  have n2 : (0:ℚ) ≤ if c2 then 0 else v2 := by
    by_cases k : c2
    · simp [k]
    · simp [k]; exact le_of_lt (h2 k)
  have n3 : (0:ℚ) ≤ if c3 then 0 else v3 := by
    by_cases k : c3
    · simp [k]
    · simp [k]; exact le_of_lt (h3 k)
  have n4 : (0:ℚ) ≤ if c4 then 0 else v4 := by
    by_cases k : c4
    · simp [k]
    · simp [k]; exact le_of_lt (h4 k)
  rcases not_and_or.mp hnot with k1 | h234
  · have p1 : (0:ℚ) < if c1 then 0 else v1 := by simp [k1]; exact h1 k1
    linarith
  · rcases not_and_or.mp h234 with k2 | h34
    · have p2 : (0:ℚ) < if c2 then 0 else v2 := by simp [k2]; exact h2 k2
      linarith
    · rcases not_and_or.mp h34 with k3 | k4
      · have p3 : (0:ℚ) < if c3 then 0 else v3 := by simp [k3]; exact h3 k3
        linarith
      · have p4 : (0:ℚ) < if c4 then 0 else v4 := by simp [k4]; exact h4 k4
        linarith

/-- C5: for a feasible solution the penalty is exactly zero and fitness
equals the objective; for an infeasible one the penalty is strictly
positive, fitness equals objective plus penalty (hence strictly exceeds
the objective), and the penalty is the sum of only the violated
constraint magnitudes, each scaled by 1000. -/
theorem C5_feasible_zero_penalty_infeasible_strict (m : ProductionModel)
    (s : Solution) (tech : TechnologyRecord) (h : m.findTech s.1 = some tech) :
    ∃ obj feas pen, m.objective_function s = .ok obj ∧
      m.is_feasible s = .ok (feas, pen) ∧
      (feas = true → pen = 0 ∧ m.fitness_function s = .ok [obj]) ∧
      (feas = false → 0 < pen ∧ obj < obj + pen ∧
        m.fitness_function s = .ok [obj + pen] ∧
        pen = (if s.2 ≤ m.P_max then 0 else 1000 * (s.2 - m.P_max))
          + (if tech.energy_consumption_rate * s.2 ≤ m.E_max then 0
              else 1000 * (tech.energy_consumption_rate * s.2 - m.E_max))
          + (if tech.efficiency_factor * s.2 ≥ m.Q_min then 0
              else 1000 * (m.Q_min - tech.efficiency_factor * s.2))
          + (if s.2 ≥ 0 then 0 else 1000 * (-s.2))) := by
  have ho := objective_of_findTech h
  have hfs := is_feasible_of_findTech h
  refine ⟨_, _, _, ho, hfs, ?_, ?_⟩
  · intro hft
    simp only [Bool.and_eq_true, decide_eq_true_eq] at hft
    obtain ⟨⟨⟨a1, a2⟩, a3⟩, a4⟩ := hft
    constructor
    · simp [a1, a2, a3, a4]
    · simp [ProductionModel.fitness_function, ho, hfs, a1, a2, a3, a4]
  · intro hff
    have hnot : ¬((s.2 ≤ m.P_max) ∧ (tech.energy_consumption_rate * s.2 ≤ m.E_max) ∧
        (tech.efficiency_factor * s.2 ≥ m.Q_min) ∧ (s.2 ≥ 0)) := by
      rintro ⟨a1, a2, a3, a4⟩
      simp [a1, a2, a3, a4] at hff
    have hodd : (0:ℚ) <
        (if s.2 ≤ m.P_max then 0 else (s.2 - m.P_max) * 1000)
        + (if tech.energy_consumption_rate * s.2 ≤ m.E_max then 0
            else (tech.energy_consumption_rate * s.2 - m.E_max) * 1000)
        + (if tech.efficiency_factor * s.2 ≥ m.Q_min then 0
            else (m.Q_min - tech.efficiency_factor * s.2) * 1000)
        + (if s.2 ≥ 0 then 0 else (-s.2) * 1000) := by
      refine penalty_sum_pos ?_ ?_ ?_ ?_ hnot
      · intro k
        have := not_le.mp k
        have hsub : (0:ℚ) < s.2 - m.P_max := by linarith
        exact mul_pos hsub (by norm_num)
      · intro k
        have := not_le.mp k
        have hsub : (0:ℚ) < tech.energy_consumption_rate * s.2 - m.E_max := by linarith
        exact mul_pos hsub (by norm_num)
      · intro k
        have := not_le.mp k
        have hsub : (0:ℚ) < m.Q_min - tech.efficiency_factor * s.2 := by linarith
        exact mul_pos hsub (by norm_num)
      · intro k
        have := not_le.mp k
        have hsub : (0:ℚ) < -s.2 := by linarith
        exact mul_pos hsub (by norm_num)
    refine ⟨hodd, by linarith, ?_, ?_⟩
    · simp [ProductionModel.fitness_function, ho, hfs, hff]
    · split_ifs <;> ring

/-- Witness for C5 at the spec scenario: model `demoModel`, candidate
`(1, 500)`. -/
theorem C5_feasible_zero_penalty_infeasible_strict_witness :
    demoModel.findTech 1 = some demoTech ∧
    (∃ obj feas pen, demoModel.objective_function (1, 500) = .ok obj ∧
      demoModel.is_feasible (1, 500) = .ok (feas, pen) ∧
      (feas = true → pen = 0 ∧ demoModel.fitness_function (1, 500) = .ok [obj]) ∧
      (feas = false → 0 < pen ∧ obj < obj + pen ∧
        demoModel.fitness_function (1, 500) = .ok [obj + pen] ∧
        pen = (if (500:ℚ) ≤ demoModel.P_max then 0 else 1000 * (500 - demoModel.P_max))
          + (if demoTech.energy_consumption_rate * 500 ≤ demoModel.E_max then 0
              else 1000 * (demoTech.energy_consumption_rate * 500 - demoModel.E_max))
          + (if demoTech.efficiency_factor * 500 ≥ demoModel.Q_min then 0
              else 1000 * (demoModel.Q_min - demoTech.efficiency_factor * 500))
          + (if (500:ℚ) ≥ 0 then 0 else 1000 * (-(500:ℚ))))) :=
  ⟨rfl, C5_feasible_zero_penalty_infeasible_strict demoModel (1, 500) demoTech rfl⟩

end Nanocellulose

namespace Nanocellulose

/-- C7: for a loaded record with positive marginal cost
(`operational_cost + C_E * energy_consumption_rate + C_B`), the objective
is strictly increasing in capacity. -/
theorem C7_objective_strictly_increasing (m : ProductionModel) (tid y1 y2 : ℚ)
    (tech : TechnologyRecord) (h : m.findTech tid = some tech)
    (hslope : 0 < tech.operational_cost + m.C_E * tech.energy_consumption_rate + m.C_B)
    (hy : y1 < y2) :
    ∃ c1 c2, m.objective_function (tid, y1) = .ok c1 ∧
      m.objective_function (tid, y2) = .ok c2 ∧ c1 < c2 := by
  refine ⟨_, _, objective_of_findTech h, objective_of_findTech h, ?_⟩
  have hdiff := mul_pos hslope (sub_pos.mpr hy)
  nlinarith [hdiff]

/-- Witness for C7 on the spec scenario record, capacities 100 < 200. -/
theorem C7_objective_strictly_increasing_witness :
    demoModel.findTech 1 = some demoTech ∧
    0 < demoTech.operational_cost + demoModel.C_E * demoTech.energy_consumption_rate
      + demoModel.C_B ∧
    (100:ℚ) < 200 ∧
    (∃ c1 c2, demoModel.objective_function (1, 100) = .ok c1 ∧
      demoModel.objective_function (1, 200) = .ok c2 ∧ c1 < c2) := by
  have hs : 0 < demoTech.operational_cost
      + demoModel.C_E * demoTech.energy_consumption_rate + demoModel.C_B := by
    norm_num [demoModel, demoTech, ProductionModel.init]
  exact ⟨rfl, hs, by norm_num,
    C7_objective_strictly_increasing demoModel 1 100 200 demoTech rfl hs (by norm_num)⟩

end Nanocellulose

namespace Nanocellulose

/-- Updating a non-empty best tracker never raises its fitness: the result
is still a tracked candidate whose fitness is at most the previous one. -/
theorem hofUpdate1_some_le :
    ∀ (l : List Ind) (b : Ind), ∃ b2, hofUpdate1 (some b) l = some b2 ∧ b2.2 ≤ b.2 := by
  intro l
  induction l with
  | nil => intro b; exact ⟨b, rfl, le_refl _⟩
  | cons x xs ih =>
    intro b
    by_cases hx : x.2 < b.2
    · obtain ⟨b2, h1, h2⟩ := ih x
      refine ⟨b2, ?_, le_trans h2 (le_of_lt hx)⟩
      simp only [hofUpdate1, List.foldl_cons] at h1 ⊢
      simpa [hx] using h1
    · obtain ⟨b2, h1, h2⟩ := ih b
      refine ⟨b2, ?_, h2⟩
      simp only [hofUpdate1, List.foldl_cons] at h1 ⊢
      simpa [hx] using h1

/-- Peeling the last generation instead of the first: running `k + 1`
generations equals running `k` generations and then one more at index
`g + k`. -/
theorem gaLoop_succ_last (m : ProductionModel) (oracle : GAOracle)
    (cxpb mutpb : ℚ) :
    ∀ (k g : ℕ) (st : List Ind × Option Ind),
      gaLoop m oracle cxpb mutpb (k + 1) g st =
        match gaLoop m oracle cxpb mutpb k g st with
        | .error e => .error e
        | .ok st2 => gaGen m oracle cxpb mutpb (g + k) st2 := by
  intro k
  induction k with
  | zero =>
    intro g st
    cases hg : gaGen m oracle cxpb mutpb g st <;> simp [gaLoop, hg]
  | succ k ih =>
    intro g st
    show (match gaGen m oracle cxpb mutpb g st with
      | Except.error e => Except.error e
      | Except.ok st2 => gaLoop m oracle cxpb mutpb (k + 1) (g + 1) st2) = _
    cases hg : gaGen m oracle cxpb mutpb g st with
    | error e =>
      have hr : gaLoop m oracle cxpb mutpb (k + 1) g st = .error e := by
        show (match gaGen m oracle cxpb mutpb g st with
          | Except.error e => Except.error e
          | Except.ok st2 => gaLoop m oracle cxpb mutpb k (g + 1) st2) = _
        rw [hg]
      show (Except.error e : Except EvalError (List Ind × Option Ind)) = _
      rw [hr]
    | ok st2 =>
      have hr : gaLoop m oracle cxpb mutpb (k + 1) g st =
          gaLoop m oracle cxpb mutpb k (g + 1) st2 := by
        show (match gaGen m oracle cxpb mutpb g st with
          | Except.error e => Except.error e
          | Except.ok st2 => gaLoop m oracle cxpb mutpb k (g + 1) st2) = _
        rw [hg]
      show gaLoop m oracle cxpb mutpb (k + 1) (g + 1) st2 = _
      rw [hr, ih (g + 1) st2]
      have harith : g + 1 + k = g + (k + 1) := by omega
      rw [harith]

/-- One generation step keeps the best tracker populated and never raises
its fitness. -/
theorem gaGen_hof_mono (m : ProductionModel) (oracle : GAOracle)
    (cxpb mutpb : ℚ) (g : ℕ) (pop : List Ind) (b : Ind)
    (pop2 : List Ind) (hof2 : Option Ind)
    (h : gaGen m oracle cxpb mutpb g (pop, some b) = .ok (pop2, hof2)) :
    ∃ b2, hof2 = some b2 ∧ b2.2 ≤ b.2 := by
  unfold gaGen at h
  cases he : evaluatePop m (oracle.variedGenes g cxpb mutpb (pop.map Prod.fst)) with
  | error e => rw [he] at h; cases h
  | ok off =>
    rw [he] at h
    obtain ⟨b2, hb2, hle⟩ := hofUpdate1_some_le off b
    have h2 : hofUpdate1 (some b) off = hof2 := by
      cases h; rfl
    exact ⟨b2, h2 ▸ hb2, hle⟩

/-- C9: across every run of the loop, the best tracker fitness is
monotonically non-increasing between consecutive generations, for every
choice of random draws and regardless of what survives replacement. -/
theorem C9_best_tracker_monotone (m : ProductionModel) (oracle : GAOracle)
    (cxpb mutpb : ℚ) (st0 : List Ind × Option Ind) (n : ℕ)
    (pop pop2 : List Ind) (best best2 : Ind)
    (h1 : gaStateAfter m oracle cxpb mutpb st0 n = .ok (pop, some best))
    (h2 : gaStateAfter m oracle cxpb mutpb st0 (n + 1) = .ok (pop2, some best2)) :
    best2.2 ≤ best.2 := by
  unfold gaStateAfter at h1 h2
  rw [gaLoop_succ_last, h1] at h2
  obtain ⟨b2, hb2, hle⟩ :=
    gaGen_hof_mono m oracle cxpb mutpb (1 + n) pop best pop2 (some best2) h2
  injection hb2 with hbb
  rw [hbb]
  exact hle

/-- Witness for C9: one generation of the scenario run; the tracked fitness
stays at 1975. -/
theorem C9_best_tracker_monotone_witness :
    gaStateAfter demoModel oracleConst (7/10) (1/5)
        ([((1, 500), 1975)], some ((1, 500), 1975)) 0 =
      .ok ([((1, 500), 1975)], some ((1, 500), 1975)) ∧
    gaStateAfter demoModel oracleConst (7/10) (1/5)
        ([((1, 500), 1975)], some ((1, 500), 1975)) 1 =
      .ok ([((1, 500), 1975)], some ((1, 500), 1975)) ∧
    ((((1:ℚ), (500:ℚ)), (1975:ℚ))).2 ≤ ((((1:ℚ), (500:ℚ)), (1975:ℚ))).2 := by
  have h1 : gaStateAfter demoModel oracleConst (7/10) (1/5)
      ([((1, 500), 1975)], some ((1, 500), 1975)) 0 =
      .ok ([((1, 500), 1975)], some ((1, 500), 1975)) := rfl
  have h2 : gaStateAfter demoModel oracleConst (7/10) (1/5)
      ([((1, 500), 1975)], some ((1, 500), 1975)) 1 =
      .ok ([((1, 500), 1975)], some ((1, 500), 1975)) := by
    norm_num [gaStateAfter, gaLoop, gaGen, evaluatePop, hofUpdate1, oracleConst,
      ProductionModel.fitness_function, ProductionModel.objective_function,
      ProductionModel.is_feasible, ProductionModel.calculate_quality,
      ProductionModel.findTech, demoModel, demoTech, ProductionModel.init]
  exact ⟨h1, h2, C9_best_tracker_monotone demoModel oracleConst (7/10) (1/5)
    ([((1, 500), 1975)], some ((1, 500), 1975)) 0 _ _ _ _ h1 h2⟩

end Nanocellulose

namespace Nanocellulose

/-- Fitness of the spec scenario candidate `(1, 500)` under `demoModel`:
the candidate is feasible and its cost is 1975. -/
theorem demoModel_fitness_1_500 :
    demoModel.fitness_function (1, 500) = .ok [1975] := by
  norm_num [ProductionModel.fitness_function, ProductionModel.objective_function,
    ProductionModel.is_feasible, ProductionModel.calculate_quality,
    ProductionModel.findTech, demoModel, demoTech, ProductionModel.init]

/-- Evaluating any number of copies of the scenario candidate succeeds. -/
theorem evaluatePop_replicate (n : ℕ) :
    evaluatePop demoModel (List.replicate n (1, 500)) =
      .ok (List.replicate n ((1, 500), 1975)) := by
  induction n with
  | zero => simp [evaluatePop]
  | succ k ih =>
    simp [List.replicate_succ, evaluatePop, demoModel_fitness_1_500, ih]

/-- Updating a tracker that already holds `b` with any number of copies of
`b` leaves it unchanged (no strictly better candidate appears). -/
theorem hofUpdate1_replicate_self (b : Ind) :
    ∀ n : ℕ, hofUpdate1 (some b) (List.replicate n b) = some b := by
  intro n
  induction n with
  | zero => rfl
  | succ k ih =>
    simp only [hofUpdate1, List.replicate_succ, List.foldl_cons,
      lt_self_iff_false, if_false]
    simpa [hofUpdate1] using ih

/-- Seeding an empty tracker from a non-empty population of copies of `b`
tracks `b`. -/
theorem hofUpdate1_none_replicate (b : Ind) (j : ℕ) :
    hofUpdate1 none (List.replicate (j + 1) b) = some b := by
  simp only [hofUpdate1, List.replicate_succ, List.foldl_cons]
  simpa [hofUpdate1] using hofUpdate1_replicate_self b j

/-- Statistics of a non-empty population compile successfully. -/
theorem statsCompile_replicate_succ (j : ℕ) (b : Ind) :
    ∃ r, statsCompile (List.replicate (j + 1) b) = .ok r := by
  simp [statsCompile, List.replicate_succ, List.map_replicate]

/-- The `run_ga` loop over a non-empty scenario population completes
normally and keeps tracking the scenario candidate, whatever the
generation count, crossover and mutation parameters. -/
theorem gaLoopRun_demo (cxpb mutpb : ℚ) (j : ℕ) :
    ∀ (k g : ℕ),
      gaLoopRun demoModel oracleConst cxpb mutpb k g
        (List.replicate (j + 1) ((1, 500), 1975), some ((1, 500), 1975)) =
      .ok (List.replicate (j + 1) ((1, 500), 1975), some ((1, 500), 1975)) := by
  intro k
  induction k with
  | zero => intro g; rfl
  | succ k ih =>
    intro g
    have hgen : gaGen demoModel oracleConst cxpb mutpb g
        (List.replicate (j + 1) ((1, 500), 1975), some ((1, 500), 1975)) =
        .ok (List.replicate (j + 1) ((1, 500), 1975), some ((1, 500), 1975)) := by
      simp [gaGen, oracleConst, List.map_replicate, evaluatePop_replicate,
        hofUpdate1_replicate_self]
    obtain ⟨r, hr⟩ := statsCompile_replicate_succ j (((1 : ℚ), (500 : ℚ)), (1975 : ℚ))
    simp [gaLoopRun, gaStep, hgen, hr, ih (g + 1)]

/-- C6 (amended): `run_ga` performs no configuration validation: with a
positive population size the run executes to completion and returns a
best candidate for every generation count, crossover probability and
mutation probability, however invalid; with a non-positive population
size the run is still not rejected as an invalid configuration — it
starts and then fails at runtime when the registered statistics reduce
the empty fitness set. -/
theorem C6_amended_no_config_validation (population_size generations : ℤ)
    (cxpb mutpb : ℚ) :
    (0 < population_size →
      ∃ best best_cost, run_ga demoModel oracleConst population_size generations
        cxpb mutpb = .ok (best, best_cost)) ∧
    (population_size ≤ 0 →
      run_ga demoModel oracleConst population_size generations cxpb mutpb
        = .error .emptyStatsError) := by
  constructor
  · intro hpos
    obtain ⟨j, hj⟩ : ∃ j, population_size.toNat = j + 1 :=
      ⟨population_size.toNat - 1, by omega⟩
    refine ⟨((1, 500), 1975), 1975, ?_⟩
    have hinit : evaluatePop demoModel (oracleConst.initGenes population_size.toNat) =
        .ok (List.replicate (j + 1) ((1, 500), 1975)) := by
      simp [oracleConst, hj, evaluatePop_replicate]
    obtain ⟨r, hr⟩ := statsCompile_replicate_succ j (((1 : ℚ), (500 : ℚ)), (1975 : ℚ))
    have hloop := gaLoopRun_demo cxpb mutpb j generations.toNat 1
    simp [run_ga, hinit, hofUpdate1_none_replicate, hr, hloop,
      demoModel_fitness_1_500]
  · intro hneg
    have h0 : population_size.toNat = 0 := by omega
    simp [run_ga, oracleConst, h0, evaluatePop, hofUpdate1, statsCompile]

/-- Witness for the amended C6: at population size 2 with probabilities
3/2 and 2 the run completes and returns a best; at population size 0 it
fails at the statistics step, not with a configuration rejection. -/
theorem C6_amended_no_config_validation_witness :
    (∃ best best_cost, run_ga demoModel oracleConst 2 1 (3/2) 2
      = .ok (best, best_cost)) ∧
    run_ga demoModel oracleConst 0 1 (3/2) 2 = .error .emptyStatsError :=
  ⟨(C6_amended_no_config_validation 2 1 (3/2) 2).1 (by norm_num),
   (C6_amended_no_config_validation 0 1 (3/2) 2).2 (by norm_num)⟩

/-- C6 counterexample: with crossover probability 3/2 and mutation
probability 2 — both outside [0, 1] — the run is not rejected at
construction: it executes a full generation and returns a best candidate
with its cost, refuting the claim that no run is executed with such a
configuration. -/
theorem C6_counterexample_invalid_config_runs :
    ¬ ((3/2 : ℚ) ≤ 1) ∧ ¬ ((2 : ℚ) ≤ 1) ∧
    run_ga demoModel oracleConst 2 1 (3/2) 2 = .ok (((1, 500), 1975), 1975) := by
  refine ⟨by norm_num, by norm_num, ?_⟩
  norm_num [run_ga, gaLoopRun, gaStep, gaGen, statsCompile, evaluatePop,
    hofUpdate1, oracleConst,
    ProductionModel.fitness_function, ProductionModel.objective_function,
    ProductionModel.is_feasible, ProductionModel.calculate_quality,
    ProductionModel.findTech, demoModel, demoTech, ProductionModel.init]

end Nanocellulose
